import Mathlib

/-!
Shallow embedding of the SupplyGuard assessment lifecycle core:
the shared schema (src/shared/schema.ts), the in-memory record store
(src/server/storage.ts), the assessment lifecycle orchestrator with its
provider race and emergency fallback (src/server/routes.ts, the revision
with the 11-second deadline), and the gemini-service fallback analyzer
(src/unnamed/part_007, createFallbackAnalysis).

Modelling conventions:
* JS numbers are modelled as rationals; timestamps as naturals (ms).
* The JS `Map` is modelled as an association list with `Map.set`
  semantics: replace in place when the key exists, append otherwise.
* `Array.prototype.sort` with comparator `(a, b) => b.createdAt - a.createdAt`
  is a stable sort by descending `createdAt`; it is modelled with the
  stable `List.insertionSort`.
* Promises are modelled by explicit outcome parameters: the orchestrator's
  `Promise.race` outcome is a `RaceOutcome`, and a race loser settles with
  no attached continuation, hence contributes no store write.
-/

namespace SupplyGuard

/-- Status field of an assessment record: "pending", "processing",
"completed", "failed" (schema.ts line 20). -/
inductive Status where
  | pending
  | processing
  | completed
  | failed
deriving DecidableEq, Repr

/-- Supplier criticality enum from supplierSchema (schema.ts). -/
inductive Criticality where
  | high
  | medium
  | low
deriving DecidableEq, Repr

/-- Vulnerability severity enum from vulnerabilitySchema (schema.ts). -/
inductive Severity where
  | high
  | medium
  | low
deriving DecidableEq, Repr

/-- Recommendation priority enum from recommendationSchema (schema.ts). -/
inductive Priority where
  | critical
  | high
  | medium
  | low
deriving DecidableEq, Repr

/-- Supplier shape from supplierSchema (schema.ts lines 34-39). -/
structure Supplier where
  name : String
  location : String
  criticality : Criticality
  products : String
deriving DecidableEq, Repr

/-- Transportation method flags from transportationMethodsSchema
(schema.ts lines 41-46). -/
structure TransportationMethods where
  ocean : Bool
  air : Bool
  truck : Bool
  rail : Bool
deriving DecidableEq, Repr

/-- Validated assessment input (the z.infer of assessmentInputSchema). -/
structure AssessmentInput where
  companyName : String
  industry : String
  suppliers : List Supplier
  logisticsRoutes : String
  transportationMethods : TransportationMethods
  riskFactors : String
deriving DecidableEq, Repr

/-- Vulnerability shape from vulnerabilitySchema (schema.ts lines 57-65). -/
structure Vulnerability where
  id : String
  title : String
  description : String
  severity : Severity
  score : ℚ
  impactTimeline : String
  potentialCost : String
deriving DecidableEq, Repr

/-- Recommendation shape from recommendationSchema (schema.ts lines 67-73). -/
structure Recommendation where
  id : String
  title : String
  description : String
  timeline : String
  priority : Priority
deriving DecidableEq, Repr

/-- Score block of a provider/fallback result (gemini.ts AssessmentScores). -/
structure AssessmentScores where
  overallRiskScore : ℚ
  supplierRiskScore : ℚ
  logisticsRiskScore : ℚ
  geopoliticalRiskScore : ℚ
deriving DecidableEq, Repr

/-- Structured analysis result (gemini.ts GeminiAssessmentResponse). -/
structure GeminiAssessmentResponse where
  scores : AssessmentScores
  vulnerabilities : List Vulnerability
  recommendations : List Recommendation
deriving DecidableEq, Repr

/-- Stored assessment record (the Assessment row type of schema.ts):
facts fields inlined as in the source, nullable result fields, status and
the two timestamps. -/
structure Assessment where
  id : String
  companyName : String
  industry : String
  suppliers : List Supplier
  logisticsRoutes : String
  transportationMethods : TransportationMethods
  riskFactors : String
  overallRiskScore : Option ℚ
  supplierRiskScore : Option ℚ
  logisticsRiskScore : Option ℚ
  geopoliticalRiskScore : Option ℚ
  vulnerabilities : Option (List Vulnerability)
  recommendations : Option (List Recommendation)
  status : Status
  createdAt : ℕ
  updatedAt : ℕ
deriving DecidableEq, Repr

/-- Partial update object (TS `Partial<Assessment>` as used by the
orchestrator and the PATCH route): an outer `Option` marks whether the
field is present in the update object; a present field replaces the
stored one by object spread. -/
structure UpdatePatch where
  status : Option Status := none
  overallRiskScore : Option (Option ℚ) := none
  supplierRiskScore : Option (Option ℚ) := none
  logisticsRiskScore : Option (Option ℚ) := none
  geopoliticalRiskScore : Option (Option ℚ) := none
  vulnerabilities : Option (Option (List Vulnerability)) := none
  recommendations : Option (Option (List Recommendation)) := none
deriving DecidableEq, Repr

/-- The in-memory store: the `Map<string, Assessment>` of MemStorage,
as an association list in insertion order. -/
abbrev Store : Type := List (String × Assessment)

/-- JS `Map.prototype.get`. -/
def mapGet : Store → String → Option Assessment
  | [], _ => none
  | (k', v') :: rest, k => if k' = k then some v' else mapGet rest k

/-- JS `Map.prototype.set`: replace in place when the key is present,
append otherwise (insertion order preserved). -/
def mapSet : Store → String → Assessment → Store
  | [], k, v => [(k, v)]
  | (k', v') :: rest, k, v =>
      if k' = k then (k, v) :: rest else (k', v') :: mapSet rest k v

/-- MemStorage.getAssessment (storage.ts lines 18-20). -/
def getAssessment (s : Store) (id : String) : Option Assessment :=
  mapGet s id

/-- Descending-createdAt comparator relation induced by the JS comparator
`(a, b) => b.createdAt - a.createdAt` (storage.ts line 24). -/
def createdAtDesc (a b : Assessment) : Prop :=
  b.createdAt ≤ a.createdAt

instance : DecidableRel createdAtDesc := fun a b =>
  inferInstanceAs (Decidable (b.createdAt ≤ a.createdAt))

instance : IsTotal Assessment createdAtDesc :=
  ⟨fun a b => le_total b.createdAt a.createdAt⟩

instance : IsTrans Assessment createdAtDesc :=
  ⟨fun _ _ _ h₁ h₂ => le_trans h₂ h₁⟩

/-- MemStorage.getAllAssessments (storage.ts lines 22-26): values in
insertion order, stably sorted by descending createdAt. -/
def getAllAssessments (s : Store) : List Assessment :=
  List.insertionSort createdAtDesc (s.map Prod.snd)

/-- MemStorage.createAssessment (storage.ts lines 28-53). The generated
`randomUUID()` and `new Date()` are oracle parameters `id` and `now`. -/
def createAssessment (s : Store) (id : String) (now : ℕ)
    (assessmentData : AssessmentInput) : Assessment × Store :=
  let assessment : Assessment :=
    { id := id
      companyName := assessmentData.companyName
      industry := assessmentData.industry
      suppliers := assessmentData.suppliers
      logisticsRoutes := assessmentData.logisticsRoutes
      transportationMethods := assessmentData.transportationMethods
      riskFactors := assessmentData.riskFactors
      overallRiskScore := none
      supplierRiskScore := none
      logisticsRiskScore := none
      geopoliticalRiskScore := none
      vulnerabilities := none
      recommendations := none
      status := Status.pending
      createdAt := now
      updatedAt := now }
  (assessment, mapSet s id assessment)

/-- Object spread `{...existing, ...updates, updatedAt: new Date()}`
(storage.ts lines 59-63). -/
def applyPatch (existing : Assessment) (p : UpdatePatch) (now : ℕ) :
    Assessment :=
  { existing with
    status := p.status.getD existing.status
    overallRiskScore := p.overallRiskScore.getD existing.overallRiskScore
    supplierRiskScore := p.supplierRiskScore.getD existing.supplierRiskScore
    logisticsRiskScore := p.logisticsRiskScore.getD existing.logisticsRiskScore
    geopoliticalRiskScore :=
      p.geopoliticalRiskScore.getD existing.geopoliticalRiskScore
    vulnerabilities := p.vulnerabilities.getD existing.vulnerabilities
    recommendations := p.recommendations.getD existing.recommendations
    updatedAt := now }

/-- MemStorage.updateAssessment (storage.ts lines 55-67): undefined on an
unknown id (no mutation), otherwise the merged record and the new store. -/
def updateAssessment (s : Store) (id : String) (updates : UpdatePatch)
    (now : ℕ) : Option (Assessment × Store) :=
  match mapGet s id with
  | none => none
  | some existing =>
      let updated := applyPatch existing updates now
      some (updated, mapSet s id updated)

/-- Store after an updateAssessment call whose result the caller ignores
(as the orchestrator does): unchanged when the id is unknown. -/
def updateStore (s : Store) (id : String) (updates : UpdatePatch)
    (now : ℕ) : Store :=
  match updateAssessment s id updates now with
  | none => s
  | some (_, s') => s'

/-- JS `Math.round` on an (idealized, rational) number:
round half toward positive infinity. -/
def jsRound (q : ℚ) : ℤ :=
  ⌊q + 1/2⌋

/-- Lowercased character list of a string (model of `s.toLowerCase()`). -/
def strLower (s : String) : List Char :=
  s.data.map Char.toLower

/-- JS `s.toLowerCase().includes(pat)`: `pat` (itself lower-case in every
source call site) occurs as a substring of the lowercased `s`. -/
def lowerIncludes (s pat : String) : Bool :=
  ((strLower s).tails).any (strLower pat).isPrefixOf

/-- JS `Object.entries(transportationMethods).filter(([_, used]) => used)
.map(([method]) => method)`: names of the enabled transport flags in
object-key order (ocean, air, truck, rail). -/
def transportMethodNames (t : TransportationMethods) : List String :=
  (if t.ocean then ["ocean"] else []) ++
  (if t.air then ["air"] else []) ++
  (if t.truck then ["truck"] else []) ++
  (if t.rail then ["rail"] else [])

/-- createEmergencyFallback (routes.ts lines 318-371, the revision with
the 11-second race): pure heuristic result used by the orchestrator when
the provider call rejects or the deadline fires. -/
def createEmergencyFallback (data : AssessmentInput) :
    GeminiAssessmentResponse :=
  let supplierRisk : ℚ := if data.suppliers.length = 1 then 8 else 5
  let hasPortRisk : Bool :=
    lowerIncludes data.riskFactors "port" ||
      lowerIncludes data.riskFactors "congestion"
  let logisticsRisk : ℚ := if hasPortRisk then 7 else 4
  let hasChinaRisk : Bool :=
    data.suppliers.any fun s => lowerIncludes s.location "china"
  let geopoliticalRisk : ℚ := if hasChinaRisk then 7 else 4
  let overallRisk : ℚ :=
    ((jsRound ((supplierRisk + logisticsRisk + geopoliticalRisk) / 3) : ℤ) : ℚ)
  { scores :=
      { overallRiskScore := overallRisk
        supplierRiskScore := supplierRisk
        logisticsRiskScore := logisticsRisk
        geopoliticalRiskScore := geopoliticalRisk }
    vulnerabilities :=
      [ { id := "vuln_001"
          title := "Supply Chain Concentration Risk"
          description :=
            "Limited supplier diversity creates vulnerability to disruptions."
          severity := Severity.high
          score := supplierRisk
          impactTimeline := "Immediate to weeks"
          potentialCost := "$100K-$1M USD" },
        { id := "vuln_002"
          title := "Logistics Bottleneck Risk"
          description := "Transportation dependencies may cause delays."
          severity := Severity.medium
          score := logisticsRisk
          impactTimeline := "Days to weeks"
          potentialCost := "$50K-$500K USD" } ]
    recommendations :=
      [ { id := "rec_001"
          title := "Diversify Supplier Network"
          description :=
            "Add backup suppliers to reduce single points of failure."
          timeline := "3-6 months"
          priority := Priority.critical },
        { id := "rec_002"
          title := "Optimize Logistics Routes"
          description :=
            "Develop alternative transportation and routing plans."
          timeline := "1-3 months"
          priority := Priority.high } ] }

/-- createFallbackAnalysis (src/unnamed/part_007 lines 117-170): the
gemini-service fallback used on provider timeout. Note the logistics
heuristic checks only the substring "port" (not "congestion"). -/
def createFallbackAnalysis (data : AssessmentInput) :
    GeminiAssessmentResponse :=
  let supplierRisk : ℚ := if data.suppliers.length = 1 then 8 else 5
  let logisticsRisk : ℚ :=
    if lowerIncludes data.riskFactors "port" then 7 else 4
  let geopoliticalRisk : ℚ :=
    if data.suppliers.any (fun s => lowerIncludes s.location "china") then 7
    else 4
  let overallRisk : ℚ :=
    ((jsRound ((supplierRisk + logisticsRisk + geopoliticalRisk) / 3) : ℤ) : ℚ)
  { scores :=
      { overallRiskScore := overallRisk
        supplierRiskScore := supplierRisk
        logisticsRiskScore := logisticsRisk
        geopoliticalRiskScore := geopoliticalRisk }
    vulnerabilities :=
      [ { id := "vuln_001"
          title :=
            if data.suppliers.length = 1 then "Single Supplier Dependency"
            else "Supplier Concentration Risk"
          description :=
            "Reliance on " ++ toString data.suppliers.length ++
              " supplier(s) creates supply chain vulnerability."
          severity := Severity.high
          score := supplierRisk
          impactTimeline := "Immediate to weeks"
          potentialCost := "Hundreds of thousands USD" },
        { id := "vuln_002"
          title := "Logistics Disruption Risk"
          description :=
            "Transportation via " ++
              String.intercalate ", "
                (transportMethodNames data.transportationMethods) ++
              " may face disruptions."
          severity := Severity.medium
          score := logisticsRisk
          impactTimeline := "Days to weeks"
          potentialCost := "Tens of thousands USD" } ]
    recommendations :=
      [ { id := "rec_001"
          title := "Diversify Supplier Base"
          description :=
            "Identify and qualify alternative suppliers to reduce dependency risk."
          timeline := "3-6 months"
          priority := Priority.critical },
        { id := "rec_002"
          title := "Strengthen Logistics Planning"
          description :=
            "Develop contingency plans for transportation disruptions."
          timeline := "1-3 months"
          priority := Priority.high } ] }

/-- Provider-response parsing step of analyzeSupplyChainVulnerabilities
(gemini.ts lines 81-91): an empty body throws; any JSON body that parses
into the response type is returned as-is, with no range or shape
validation of the score values. -/
def parseProviderResponse (rawJson : Option GeminiAssessmentResponse) :
    Except String GeminiAssessmentResponse :=
  match rawJson with
  | none => Except.error "Empty response from Gemini API"
  | some data => Except.ok data

/-- Outcome of `Promise.race([analysisPromise, maxProcessingTime])` as
observed by the `await` in processAssessmentAsync: either the provider
resolved first with a parsed response, or the awaited race rejected
(provider rejection of any kind, or the 11-second deadline firing). -/
inductive RaceOutcome where
  | ok (r : GeminiAssessmentResponse)
  | error
deriving DecidableEq, Repr

/-- RaceOutcome produced by a provider response that settles before the
deadline, after the parsing step of gemini.ts: a rejection of any kind
(network error, empty body, JSON parse failure) lands in the catch. -/
def raceOutcomeOfResponse (rawJson : Option GeminiAssessmentResponse) :
    RaceOutcome :=
  match parseProviderResponse rawJson with
  | Except.ok r => RaceOutcome.ok r
  | Except.error _ => RaceOutcome.error

/-- The update object `{status: "processing"}` (routes.ts line 271). -/
def processingPatch : UpdatePatch :=
  { status := some Status.processing }

/-- The single completed-transition update object of processAssessmentAsync
(routes.ts lines 285-293 and 303-311): status together with all four
scores and both lists. -/
def completedPatch (r : GeminiAssessmentResponse) : UpdatePatch :=
  { status := some Status.completed
    overallRiskScore := some (some r.scores.overallRiskScore)
    supplierRiskScore := some (some r.scores.supplierRiskScore)
    logisticsRiskScore := some (some r.scores.logisticsRiskScore)
    geopoliticalRiskScore := some (some r.scores.geopoliticalRiskScore)
    vulnerabilities := some (some r.vulnerabilities)
    recommendations := some (some r.recommendations) }

/-- Result written by the completed-transition update: the provider result
when the race resolved, the emergency fallback when it rejected. -/
def raceResultData (data : AssessmentInput) : RaceOutcome →
    GeminiAssessmentResponse
  | RaceOutcome.ok r => r
  | RaceOutcome.error => createEmergencyFallback data

/-- Sequence of updateAssessment calls issued by one run of
processAssessmentAsync: first `{status: "processing"}`, then the single
completed write carrying the result. -/
def orchestratorPatches (data : AssessmentInput) (outcome : RaceOutcome) :
    List UpdatePatch :=
  [processingPatch, completedPatch (raceResultData data outcome)]

/-- Apply a sequence of timed update calls to the store, ignoring each
call's return value (as processAssessmentAsync does). -/
def runPatches (s : Store) (id : String) :
    List (UpdatePatch × ℕ) → Store
  | [] => s
  | (p, t) :: rest => runPatches (updateStore s id p t) id rest

/-- processAssessmentAsync (routes.ts lines 265-316, the revision with the
11-second race): set status processing, race the provider against the
deadline, then write the completed result — the provider's on success, the
emergency fallback's on any rejection or timeout. The two `new Date()`
calls inside updateAssessment are oracle parameters `t1`, `t2`. -/
def processAssessmentAsync (s : Store) (assessmentId : String)
    (assessmentData : AssessmentInput) (outcome : RaceOutcome)
    (t1 t2 : ℕ) : Store :=
  runPatches s assessmentId
    [(processingPatch, t1),
     (completedPatch (raceResultData assessmentData outcome), t2)]

/-- Settlement pattern of the race from the scheduler's point of view:
either the provider settles first (with a parsed response), or it rejects
first, or the deadline fires first — in which case the provider promise
may still settle later (`late`), but no continuation is attached to the
race loser, so its settlement runs no further code. -/
inductive RaceResult where
  | providerFirst (r : GeminiAssessmentResponse)
  | providerError
  | deadlineFirst (late : Option (Except String GeminiAssessmentResponse))
deriving Repr

/-- What the orchestrator's `await Promise.race` observes for each
settlement pattern: the race winner only. -/
def raceSettled : RaceResult → RaceOutcome
  | RaceResult.providerFirst r => RaceOutcome.ok r
  | RaceResult.providerError => RaceOutcome.error
  | RaceResult.deadlineFirst _ => RaceOutcome.error

/-- Full orchestration of one submission for a given race settlement
pattern. -/
def runOrchestration (s : Store) (assessmentId : String)
    (assessmentData : AssessmentInput) (res : RaceResult)
    (t1 t2 : ℕ) : Store :=
  processAssessmentAsync s assessmentId assessmentData (raceSettled res) t1 t2

/-- Raw supplier object of a request body; `none` marks an absent key. -/
structure RawSupplier where
  name : Option String
  location : Option String
  criticality : Option Criticality
  products : Option String
deriving DecidableEq, Repr

/-- Raw transportationMethods object of a request body; each absent flag
defaults to false (transportationMethodsSchema). -/
structure RawTransportationMethods where
  ocean : Option Bool := none
  air : Option Bool := none
  truck : Option Bool := none
  rail : Option Bool := none
deriving DecidableEq, Repr

/-- Raw POST /api/assessments request body; `none` marks an absent key. -/
structure RawAssessmentInput where
  companyName : Option String
  industry : Option String
  suppliers : Option (List RawSupplier)
  logisticsRoutes : Option String
  transportationMethods : Option RawTransportationMethods
  riskFactors : Option String
deriving DecidableEq, Repr

/-- supplierSchema.safeParse: all fields present, the three strings
non-empty. -/
def validateSupplier (r : RawSupplier) : Option Supplier :=
  match r.name, r.location, r.criticality, r.products with
  | some n, some l, some c, some p =>
      if 1 ≤ n.length ∧ 1 ≤ l.length ∧ 1 ≤ p.length then
        some { name := n, location := l, criticality := c, products := p }
      else none
  | _, _, _, _ => none

/-- transportationMethodsSchema.safeParse on a present object: each flag
defaults to false. -/
def validateTransportationMethods (r : RawTransportationMethods) :
    TransportationMethods :=
  { ocean := r.ocean.getD false
    air := r.air.getD false
    truck := r.truck.getD false
    rail := r.rail.getD false }

/-- assessmentInputSchema.safeParse (schema.ts lines 48-55): all six keys
present, the four strings non-empty, at least one supplier, and every
supplier valid. -/
def validateAssessmentInput (r : RawAssessmentInput) :
    Option AssessmentInput :=
  match r.companyName, r.industry, r.suppliers, r.logisticsRoutes,
      r.transportationMethods, r.riskFactors with
  | some cn, some ind, some sup, some lr, some tm, some rf =>
      match sup.mapM validateSupplier with
      | some sups =>
          if 1 ≤ cn.length ∧ 1 ≤ ind.length ∧ 1 ≤ sups.length ∧
              1 ≤ lr.length ∧ 1 ≤ rf.length then
            some
              { companyName := cn
                industry := ind
                suppliers := sups
                logisticsRoutes := lr
                transportationMethods := validateTransportationMethods tm
                riskFactors := rf }
          else none
      | none => none
  | _, _, _, _, _, _ => none

/-- The POST /api/assessments handler up to the HTTP response (routes.ts
lines 62-92): 400 and no store change on validation failure, otherwise 201
and the created record persisted (orchestration then runs asynchronously,
after the response). -/
def postAssessments (s : Store) (body : RawAssessmentInput) (id : String)
    (now : ℕ) : ℕ × Store :=
  match validateAssessmentInput body with
  | none => (400, s)
  | some assessmentData => (201, (createAssessment s id now assessmentData).2)

/-- Rank of a status in the lifecycle order pending, processing, then the
terminal states. -/
def statusRank : Status → ℕ
  | Status.pending => 0
  | Status.processing => 1
  | Status.completed => 2
  | Status.failed => 2

/-- Score block lies within the documented [0,10] range. -/
def scoresInRange (r : GeminiAssessmentResponse) : Prop :=
  0 ≤ r.scores.overallRiskScore ∧ r.scores.overallRiskScore ≤ 10 ∧
  0 ≤ r.scores.supplierRiskScore ∧ r.scores.supplierRiskScore ≤ 10 ∧
  0 ≤ r.scores.logisticsRiskScore ∧ r.scores.logisticsRiskScore ≤ 10 ∧
  0 ≤ r.scores.geopoliticalRiskScore ∧ r.scores.geopoliticalRiskScore ≤ 10

instance (r : GeminiAssessmentResponse) : Decidable (scoresInRange r) :=
  inferInstanceAs (Decidable (_ ∧ _ ∧ _ ∧ _ ∧ _ ∧ _ ∧ _ ∧ _))

/-- Sample facts matching the spec's first scenario: exactly one supplier
located in "Shanghai Port, China" and riskFactors "port congestion
issues". -/
def demoFacts : AssessmentInput :=
  { companyName := "Globex"
    industry := "Electronics"
    suppliers :=
      [ { name := "Acme Metals"
          location := "Shanghai Port, China"
          criticality := Criticality.high
          products := "Steel components" } ]
    logisticsRoutes := "Shanghai to Rotterdam"
    transportationMethods :=
      { ocean := true, air := false, truck := true, rail := false }
    riskFactors := "port congestion issues" }

/-- Sample facts matching the spec's second scenario: three suppliers,
none located in China, riskFactors "currency fluctuations". -/
def demoFacts3 : AssessmentInput :=
  { companyName := "Initech"
    industry := "Automotive"
    suppliers :=
      [ { name := "Alpha Parts"
          location := "Berlin, Germany"
          criticality := Criticality.medium
          products := "Sensors" },
        { name := "Beta Works"
          location := "Austin, USA"
          criticality := Criticality.low
          products := "Housings" },
        { name := "Gamma Steel"
          location := "Osaka, Japan"
          criticality := Criticality.high
          products := "Frames" } ]
    logisticsRoutes := "Hamburg to Baltimore"
    transportationMethods :=
      { ocean := true, air := true, truck := false, rail := false }
    riskFactors := "currency fluctuations" }

/-- Sample facts whose riskFactors contain "congestion" but not "port". -/
def congestionFacts : AssessmentInput :=
  { companyName := "Umbrella"
    industry := "Pharma"
    suppliers :=
      [ { name := "Delta Chem"
          location := "Lyon, France"
          criticality := Criticality.medium
          products := "Reagents" } ]
    logisticsRoutes := "Lyon to Boston"
    transportationMethods :=
      { ocean := false, air := true, truck := false, rail := false }
    riskFactors := "Congestion at the canal" }

/-- Store holding the single record created for demoFacts under id "a1"
at time 0. -/
def demoStore : Store :=
  (createAssessment [] "a1" 0 demoFacts).2

/-- The record created for demoFacts under id "a1" at time 0. -/
def demoRecord : Assessment :=
  (createAssessment [] "a1" 0 demoFacts).1

/-- A well-typed provider response whose overall score 11 violates the
documented [0,10] range. -/
def demoBadResponse : GeminiAssessmentResponse :=
  { scores :=
      { overallRiskScore := 11
        supplierRiskScore := 3
        logisticsRiskScore := 3
        geopoliticalRiskScore := 3 }
    vulnerabilities := []
    recommendations := [] }

/-- Store after the automatic pipeline stored demoBadResponse for record
"a1": reachable with an out-of-range provider score, since the provider
adapter performs no range validation. -/
def c5Store : Store :=
  processAssessmentAsync demoStore "a1" demoFacts
    (raceOutcomeOfResponse (some demoBadResponse)) 1 2

/-- Store after the automatic pipeline completed record "a1" with the
emergency fallback result. -/
def c4StoreCompleted : Store :=
  processAssessmentAsync demoStore "a1" demoFacts RaceOutcome.error 1 2

/-- Store after a PATCH request reset the completed record "a1" back to
status pending (the manual-retry flow the spec describes). -/
def c4StoreReset : Store :=
  updateStore c4StoreCompleted "a1" { status := some Status.pending } 3

/-- Store holding two records created at the same millisecond (time 5). -/
def tieStore : Store :=
  (createAssessment (createAssessment [] "a1" 5 demoFacts).2 "b2" 5
    demoFacts3).2

/-- Request body with the companyName key absent and everything else
valid. -/
def rawBodyNoCompany : RawAssessmentInput :=
  { companyName := none
    industry := some "Electronics"
    suppliers :=
      some
        [ { name := some "Acme Metals"
            location := some "Shanghai Port, China"
            criticality := some Criticality.high
            products := some "Steel components" } ]
    logisticsRoutes := some "Shanghai to Rotterdam"
    transportationMethods := some {}
    riskFactors := some "port congestion issues" }

/-- Request body with an empty suppliers array and everything else
valid. -/
def rawBodyEmptySuppliers : RawAssessmentInput :=
  { companyName := some "Globex"
    industry := some "Electronics"
    suppliers := some []
    logisticsRoutes := some "Shanghai to Rotterdam"
    transportationMethods := some {}
    riskFactors := some "port congestion issues" }

theorem mapGet_mapSet_self (s : Store) (k : String) (v : Assessment) :
    mapGet (mapSet s k v) k = some v := by
  induction s with
  | nil => simp [mapGet, mapSet]
  | cons hd tl ih =>
      obtain ⟨k', v'⟩ := hd
      by_cases h : k' = k
      · simp [mapGet, mapSet, h]
      · simp [mapGet, mapSet, h, ih]

theorem mapGet_mapSet_ne (s : Store) (k k' : String) (v : Assessment)
    (h : k' ≠ k) : mapGet (mapSet s k v) k' = mapGet s k' := by
  have hk : ¬ (k = k') := fun hh => h hh.symm
  induction s with
  | nil => simp [mapGet, mapSet, hk]
  | cons hd tl ih =>
      obtain ⟨k₀, v₀⟩ := hd
      by_cases h₀ : k₀ = k
      · subst h₀
        simp [mapGet, mapSet, hk]
      · simp only [mapSet, if_neg h₀, mapGet]
        by_cases h₁ : k₀ = k'
        · simp [h₁]
        · simp [h₁, ih]

theorem mapSet_absent (s : Store) (k : String) (v : Assessment)
    (h : mapGet s k = none) : mapSet s k v = s ++ [(k, v)] := by
  induction s with
  | nil => simp [mapSet]
  | cons hd tl ih =>
      obtain ⟨k₀, v₀⟩ := hd
      by_cases h₀ : k₀ = k
      · subst h₀
        simp [mapGet] at h
      · simp only [mapGet, if_neg h₀] at h
        simp [mapSet, h₀, ih h]

theorem mapGet_eq_none_not_mem (s : Store) (k : String)
    (h : mapGet s k = none) : k ∉ s.map Prod.fst := by
  induction s with
  | nil => simp
  | cons hd tl ih =>
      obtain ⟨k₀, v₀⟩ := hd
      by_cases h₀ : k₀ = k
      · subst h₀
        simp [mapGet] at h
      · simp only [mapGet, if_neg h₀] at h
        simp [ih h]
        intro hh
        exact h₀ hh.symm

theorem getAssessment_mapSet_self (s : Store) (k : String) (v : Assessment) :
    getAssessment (mapSet s k v) k = some v :=
  mapGet_mapSet_self s k v

theorem updateStore_found (s : Store) (id : String) (p : UpdatePatch)
    (t : ℕ) (a : Assessment) (h : getAssessment s id = some a) :
    updateStore s id p t = mapSet s id (applyPatch a p t) := by
  unfold getAssessment at h
  unfold updateStore updateAssessment
  rw [h]

theorem getAssessment_updateStore_found (s : Store) (id : String)
    (p : UpdatePatch) (t : ℕ) (a : Assessment)
    (h : getAssessment s id = some a) :
    getAssessment (updateStore s id p t) id = some (applyPatch a p t) := by
  rw [updateStore_found s id p t a h]
  exact getAssessment_mapSet_self s id (applyPatch a p t)

theorem updateStore_absent (s : Store) (id : String) (p : UpdatePatch)
    (t : ℕ) (h : getAssessment s id = none) :
    updateStore s id p t = s := by
  unfold getAssessment at h
  unfold updateStore updateAssessment
  rw [h]

theorem processAsync_getAssessment (s : Store) (id : String)
    (d : AssessmentInput) (outcome : RaceOutcome) (t1 t2 : ℕ)
    (a : Assessment) (h : getAssessment s id = some a) :
    getAssessment (processAssessmentAsync s id d outcome t1 t2) id =
      some (applyPatch (applyPatch a processingPatch t1)
        (completedPatch (raceResultData d outcome)) t2) := by
  have h2 := getAssessment_updateStore_found s id processingPatch t1 a h
  unfold processAssessmentAsync runPatches
  exact getAssessment_updateStore_found _ id _ t2 _ h2

theorem mapGet_eq_none_of_not_mem (s : Store) (k : String)
    (h : k ∉ s.map Prod.fst) : mapGet s k = none := by
  induction s with
  | nil => rfl
  | cons hd tl ih =>
      obtain ⟨k₀, v₀⟩ := hd
      simp only [List.map_cons, List.mem_cons, not_or] at h
      have h₀ : k₀ ≠ k := fun hh => h.1 hh.symm
      simp [mapGet, h₀, ih h.2]

/-- C1: whenever the awaited provider race rejects (timeout, network
failure, empty or malformed response — every rejection lands in the same
catch), the orchestrator completes the record with the emergency fallback
result, and the automatic pipeline maps every outcome to status completed,
never to failed. -/
theorem provider_failure_absorbed_by_fallback (s : Store) (id : String)
    (d : AssessmentInput) (t1 t2 : ℕ) (a : Assessment)
    (h : getAssessment s id = some a) :
    (∃ a', getAssessment
        (processAssessmentAsync s id d RaceOutcome.error t1 t2) id =
          some a' ∧
      a'.status = Status.completed ∧
      a'.overallRiskScore =
        some (createEmergencyFallback d).scores.overallRiskScore ∧
      a'.supplierRiskScore =
        some (createEmergencyFallback d).scores.supplierRiskScore ∧
      a'.logisticsRiskScore =
        some (createEmergencyFallback d).scores.logisticsRiskScore ∧
      a'.geopoliticalRiskScore =
        some (createEmergencyFallback d).scores.geopoliticalRiskScore ∧
      a'.vulnerabilities =
        some (createEmergencyFallback d).vulnerabilities ∧
      a'.recommendations =
        some (createEmergencyFallback d).recommendations) ∧
    (∀ outcome : RaceOutcome,
      (getAssessment (processAssessmentAsync s id d outcome t1 t2) id).map
          Assessment.status = some Status.completed ∧
      (getAssessment (processAssessmentAsync s id d outcome t1 t2) id).map
          Assessment.status ≠ some Status.failed) := by
  constructor
  · refine ⟨_, processAsync_getAssessment s id d RaceOutcome.error t1 t2 a h,
      ?_⟩
    simp [applyPatch, completedPatch, raceResultData]
  · intro outcome
    rw [processAsync_getAssessment s id d outcome t1 t2 a h]
    simp [applyPatch, completedPatch]

/-- Witness for provider_failure_absorbed_by_fallback at the demo store. -/
theorem provider_failure_absorbed_by_fallback_witness :
    getAssessment demoStore "a1" = some demoRecord ∧
    ((∃ a', getAssessment
        (processAssessmentAsync demoStore "a1" demoFacts RaceOutcome.error
          1 2) "a1" = some a' ∧
      a'.status = Status.completed ∧
      a'.overallRiskScore =
        some (createEmergencyFallback demoFacts).scores.overallRiskScore ∧
      a'.supplierRiskScore =
        some (createEmergencyFallback demoFacts).scores.supplierRiskScore ∧
      a'.logisticsRiskScore =
        some (createEmergencyFallback demoFacts).scores.logisticsRiskScore ∧
      a'.geopoliticalRiskScore =
        some (createEmergencyFallback demoFacts).scores.geopoliticalRiskScore ∧
      a'.vulnerabilities =
        some (createEmergencyFallback demoFacts).vulnerabilities ∧
      a'.recommendations =
        some (createEmergencyFallback demoFacts).recommendations) ∧
    (∀ outcome : RaceOutcome,
      (getAssessment
          (processAssessmentAsync demoStore "a1" demoFacts outcome 1 2)
          "a1").map Assessment.status = some Status.completed ∧
      (getAssessment
          (processAssessmentAsync demoStore "a1" demoFacts outcome 1 2)
          "a1").map Assessment.status ≠ some Status.failed)) :=
  ⟨rfl, provider_failure_absorbed_by_fallback demoStore "a1" demoFacts 1 2
    demoRecord rfl⟩

/-- C2: once the deadline wins the race, the stored record holds the
fallback result and the final store does not depend on how (or whether)
the losing provider promise later settles, since no continuation is
attached to it; symmetrically, when the provider wins, its result is what
stays stored. -/
theorem late_response_race_safety (s : Store) (id : String)
    (d : AssessmentInput) (r : GeminiAssessmentResponse)
    (late₁ late₂ : Option (Except String GeminiAssessmentResponse))
    (t1 t2 : ℕ) (a : Assessment) (h : getAssessment s id = some a) :
    (runOrchestration s id d (RaceResult.deadlineFirst late₁) t1 t2 =
      runOrchestration s id d (RaceResult.deadlineFirst late₂) t1 t2) ∧
    (∃ a', getAssessment
        (runOrchestration s id d
          (RaceResult.deadlineFirst (some (Except.ok r))) t1 t2) id =
          some a' ∧
      a'.status = Status.completed ∧
      a'.overallRiskScore =
        some (createEmergencyFallback d).scores.overallRiskScore ∧
      a'.supplierRiskScore =
        some (createEmergencyFallback d).scores.supplierRiskScore ∧
      a'.logisticsRiskScore =
        some (createEmergencyFallback d).scores.logisticsRiskScore ∧
      a'.geopoliticalRiskScore =
        some (createEmergencyFallback d).scores.geopoliticalRiskScore ∧
      a'.vulnerabilities = some (createEmergencyFallback d).vulnerabilities ∧
      a'.recommendations =
        some (createEmergencyFallback d).recommendations) ∧
    (∃ a', getAssessment
        (runOrchestration s id d (RaceResult.providerFirst r) t1 t2) id =
          some a' ∧
      a'.status = Status.completed ∧
      a'.overallRiskScore = some r.scores.overallRiskScore ∧
      a'.supplierRiskScore = some r.scores.supplierRiskScore ∧
      a'.logisticsRiskScore = some r.scores.logisticsRiskScore ∧
      a'.geopoliticalRiskScore = some r.scores.geopoliticalRiskScore ∧
      a'.vulnerabilities = some r.vulnerabilities ∧
      a'.recommendations = some r.recommendations) := by
  refine ⟨rfl, ?_, ?_⟩
  · refine ⟨_, processAsync_getAssessment s id d RaceOutcome.error t1 t2 a h,
      ?_⟩
    simp [applyPatch, completedPatch, raceResultData]
  · refine ⟨_,
      processAsync_getAssessment s id d (RaceOutcome.ok r) t1 t2 a h, ?_⟩
    simp [applyPatch, completedPatch, raceResultData]

/-- Witness for late_response_race_safety at the demo store. -/
theorem late_response_race_safety_witness :
    getAssessment demoStore "a1" = some demoRecord ∧
    ((runOrchestration demoStore "a1" demoFacts
        (RaceResult.deadlineFirst (some (Except.ok demoBadResponse))) 1 2 =
      runOrchestration demoStore "a1" demoFacts
        (RaceResult.deadlineFirst none) 1 2) ∧
    (∃ a', getAssessment
        (runOrchestration demoStore "a1" demoFacts
          (RaceResult.deadlineFirst (some (Except.ok demoBadResponse)))
          1 2) "a1" = some a' ∧
      a'.status = Status.completed ∧
      a'.overallRiskScore =
        some (createEmergencyFallback demoFacts).scores.overallRiskScore ∧
      a'.supplierRiskScore =
        some (createEmergencyFallback demoFacts).scores.supplierRiskScore ∧
      a'.logisticsRiskScore =
        some (createEmergencyFallback demoFacts).scores.logisticsRiskScore ∧
      a'.geopoliticalRiskScore =
        some (createEmergencyFallback demoFacts).scores.geopoliticalRiskScore ∧
      a'.vulnerabilities =
        some (createEmergencyFallback demoFacts).vulnerabilities ∧
      a'.recommendations =
        some (createEmergencyFallback demoFacts).recommendations) ∧
    (∃ a', getAssessment
        (runOrchestration demoStore "a1" demoFacts
          (RaceResult.providerFirst demoBadResponse) 1 2) "a1" = some a' ∧
      a'.status = Status.completed ∧
      a'.overallRiskScore = some demoBadResponse.scores.overallRiskScore ∧
      a'.supplierRiskScore = some demoBadResponse.scores.supplierRiskScore ∧
      a'.logisticsRiskScore = some demoBadResponse.scores.logisticsRiskScore ∧
      a'.geopoliticalRiskScore =
        some demoBadResponse.scores.geopoliticalRiskScore ∧
      a'.vulnerabilities = some demoBadResponse.vulnerabilities ∧
      a'.recommendations = some demoBadResponse.recommendations)) :=
  ⟨rfl, late_response_race_safety demoStore "a1" demoFacts demoBadResponse
    (some (Except.ok demoBadResponse)) none 1 2 demoRecord rfl⟩

/-- C6: both fallback analyzers are pure total functions of the facts —
equal inputs give equal results, and on every input they return a
well-formed result with exactly two vulnerabilities and two
recommendations. -/
theorem fallback_deterministic_total (f₁ f₂ : AssessmentInput)
    (h : f₁ = f₂) :
    createEmergencyFallback f₁ = createEmergencyFallback f₂ ∧
    createFallbackAnalysis f₁ = createFallbackAnalysis f₂ ∧
    (createEmergencyFallback f₁).vulnerabilities.length = 2 ∧
    (createEmergencyFallback f₁).recommendations.length = 2 ∧
    (createFallbackAnalysis f₁).vulnerabilities.length = 2 ∧
    (createFallbackAnalysis f₁).recommendations.length = 2 := by
  subst h
  exact ⟨rfl, rfl, rfl, rfl, rfl, rfl⟩

/-- Witness for fallback_deterministic_total at the demo facts. -/
theorem fallback_deterministic_total_witness :
    demoFacts = demoFacts ∧
    (createEmergencyFallback demoFacts = createEmergencyFallback demoFacts ∧
    createFallbackAnalysis demoFacts = createFallbackAnalysis demoFacts ∧
    (createEmergencyFallback demoFacts).vulnerabilities.length = 2 ∧
    (createEmergencyFallback demoFacts).recommendations.length = 2 ∧
    (createFallbackAnalysis demoFacts).vulnerabilities.length = 2 ∧
    (createFallbackAnalysis demoFacts).recommendations.length = 2) :=
  ⟨rfl, fallback_deterministic_total demoFacts demoFacts rfl⟩

/-- C10: get and update on an id that is not in the store both signal
not-found by returning none, and update leaves the store unchanged — in
particular it creates no record. -/
theorem unknown_id_not_found (s : Store) (id : String)
    (updates : UpdatePatch) (now : ℕ) (h : id ∉ s.map Prod.fst) :
    getAssessment s id = none ∧
    updateAssessment s id updates now = none ∧
    updateStore s id updates now = s := by
  have hg : mapGet s id = none := mapGet_eq_none_of_not_mem s id h
  refine ⟨hg, ?_, updateStore_absent s id updates now hg⟩
  unfold updateAssessment
  rw [hg]

/-- Witness for unknown_id_not_found at the demo store. -/
theorem unknown_id_not_found_witness :
    ("zz" ∉ demoStore.map Prod.fst) ∧
    (getAssessment demoStore "zz" = none ∧
    updateAssessment demoStore "zz" processingPatch 9 = none ∧
    updateStore demoStore "zz" processingPatch 9 = demoStore) :=
  ⟨by decide, unknown_id_not_found demoStore "zz" processingPatch 9
    (by decide)⟩

/-- C7: create with a fresh id returns a record with that id, status
pending, all result fields null and both timestamps set to the creation
time; the record becomes visible to get and list, the fresh id is
appended without touching any other record, and no other record is
affected. -/
theorem create_fresh_pending_record (s : Store) (id : String) (now : ℕ)
    (input : AssessmentInput) (h : id ∉ s.map Prod.fst) :
    (createAssessment s id now input).1.id = id ∧
    (createAssessment s id now input).1.status = Status.pending ∧
    (createAssessment s id now input).1.overallRiskScore = none ∧
    (createAssessment s id now input).1.supplierRiskScore = none ∧
    (createAssessment s id now input).1.logisticsRiskScore = none ∧
    (createAssessment s id now input).1.geopoliticalRiskScore = none ∧
    (createAssessment s id now input).1.vulnerabilities = none ∧
    (createAssessment s id now input).1.recommendations = none ∧
    (createAssessment s id now input).1.createdAt = now ∧
    (createAssessment s id now input).1.updatedAt = now ∧
    getAssessment (createAssessment s id now input).2 id =
      some (createAssessment s id now input).1 ∧
    (createAssessment s id now input).1 ∈
      getAllAssessments (createAssessment s id now input).2 ∧
    ((createAssessment s id now input).2).map Prod.fst =
      s.map Prod.fst ++ [id] ∧
    (∀ j, j ≠ id →
      getAssessment (createAssessment s id now input).2 j =
        getAssessment s j) := by
  have hnone : mapGet s id = none := mapGet_eq_none_of_not_mem s id h
  have habs := mapSet_absent s id (createAssessment s id now input).1 hnone
  refine ⟨rfl, rfl, rfl, rfl, rfl, rfl, rfl, rfl, rfl, rfl,
    getAssessment_mapSet_self s id _, ?_, ?_, ?_⟩
  · have hperm :=
      List.perm_insertionSort createdAtDesc
        (((createAssessment s id now input).2).map Prod.snd)
    unfold getAllAssessments
    rw [hperm.mem_iff]
    show (createAssessment s id now input).1 ∈
      (mapSet s id (createAssessment s id now input).1).map Prod.snd
    rw [habs]
    simp
  · show (mapSet s id (createAssessment s id now input).1).map Prod.fst =
      s.map Prod.fst ++ [id]
    rw [habs]
    simp
  · intro j hj
    exact mapGet_mapSet_ne s id j (createAssessment s id now input).1 hj

/-- Witness for create_fresh_pending_record: a second record "b2" created
in the demo store. -/
theorem create_fresh_pending_record_witness :
    ("b2" ∉ demoStore.map Prod.fst) ∧
    ((createAssessment demoStore "b2" 7 demoFacts3).1.id = "b2" ∧
    (createAssessment demoStore "b2" 7 demoFacts3).1.status =
      Status.pending ∧
    (createAssessment demoStore "b2" 7 demoFacts3).1.overallRiskScore =
      none ∧
    (createAssessment demoStore "b2" 7 demoFacts3).1.supplierRiskScore =
      none ∧
    (createAssessment demoStore "b2" 7 demoFacts3).1.logisticsRiskScore =
      none ∧
    (createAssessment demoStore "b2" 7 demoFacts3).1.geopoliticalRiskScore =
      none ∧
    (createAssessment demoStore "b2" 7 demoFacts3).1.vulnerabilities =
      none ∧
    (createAssessment demoStore "b2" 7 demoFacts3).1.recommendations =
      none ∧
    (createAssessment demoStore "b2" 7 demoFacts3).1.createdAt = 7 ∧
    (createAssessment demoStore "b2" 7 demoFacts3).1.updatedAt = 7 ∧
    getAssessment (createAssessment demoStore "b2" 7 demoFacts3).2 "b2" =
      some (createAssessment demoStore "b2" 7 demoFacts3).1 ∧
    (createAssessment demoStore "b2" 7 demoFacts3).1 ∈
      getAllAssessments (createAssessment demoStore "b2" 7 demoFacts3).2 ∧
    ((createAssessment demoStore "b2" 7 demoFacts3).2).map Prod.fst =
      demoStore.map Prod.fst ++ ["b2"] ∧
    (∀ j, j ≠ "b2" →
      getAssessment (createAssessment demoStore "b2" 7 demoFacts3).2 j =
        getAssessment demoStore j)) :=
  ⟨by decide, create_fresh_pending_record demoStore "b2" 7 demoFacts3
    (by decide)⟩

/-- C9 (amended): list() returns the records ordered by createdAt in
non-increasing (descending-with-ties) order — every pair, in particular
every consecutive pair, satisfies first.createdAt ≥ second.createdAt.
Strictness fails when two records share a createdAt millisecond. -/
theorem list_sorted_desc (s : Store) :
    (getAllAssessments s).Pairwise createdAtDesc ∧
    (getAllAssessments s).Chain'
      (fun r1 r2 => r2.createdAt ≤ r1.createdAt) := by
  have hp : (getAllAssessments s).Pairwise createdAtDesc :=
    List.sorted_insertionSort createdAtDesc (s.map Prod.snd)
  exact ⟨hp, List.Pairwise.chain' hp⟩

/-- Counterexample to C9 as stated: two records created in the same
millisecond make the returned order non-strict — consecutive equal
createdAt values. -/
theorem list_sorted_desc_counterexample :
    (getAllAssessments tieStore).map Assessment.createdAt = [5, 5] ∧
    ¬ List.Chain' (fun r1 r2 => r2.createdAt < r1.createdAt)
        (getAllAssessments tieStore) := by
  have hmap : (getAllAssessments tieStore).map Assessment.createdAt =
      [5, 5] := by decide
  refine ⟨hmap, ?_⟩
  intro hc
  rcases hl : getAllAssessments tieStore with _ | ⟨x, _ | ⟨y, _ | ⟨z, tl⟩⟩⟩ <;>
    rw [hl] at hmap hc <;> simp at hmap
  simp only [List.chain'_cons, List.chain'_singleton, and_true] at hc
  omega

/-- Counterexample to C4 as stated: a reachable sequence of store
operations — create, automatic pipeline to completed, then a PATCH-driven
update resetting status — moves a record from completed back to pending,
an earlier state. -/
theorem status_monotonic_counterexample :
    (getAssessment c4StoreCompleted "a1").map Assessment.status =
      some Status.completed ∧
    (getAssessment c4StoreReset "a1").map Assessment.status =
      some Status.pending ∧
    statusRank Status.pending < statusRank Status.completed := by
  have h : getAssessment demoStore "a1" = some demoRecord := rfl
  have h3 : getAssessment c4StoreCompleted "a1" =
      some (applyPatch (applyPatch demoRecord processingPatch 1)
        (completedPatch (raceResultData demoFacts RaceOutcome.error)) 2) :=
    processAsync_getAssessment demoStore "a1" demoFacts RaceOutcome.error
      1 2 demoRecord h
  refine ⟨?_, ?_, by decide⟩
  · rw [h3]
    simp [applyPatch, completedPatch]
  · have h4 := getAssessment_updateStore_found c4StoreCompleted "a1"
      { status := some Status.pending } 3 _ h3
    show (getAssessment (updateStore c4StoreCompleted "a1"
      { status := some Status.pending } 3) "a1").map Assessment.status =
      some Status.pending
    rw [h4]
    simp [applyPatch]

/-- C4 (amended): the automatic pipeline's transitions are monotonic — a
pending record is moved to processing and then, in the same run, to
completed, a rank-non-decreasing trace; only the PATCH route (whose body
is merged unvalidated, and which the spec itself reserves for manual
retry resets) can move a status backwards. -/
theorem pipeline_status_monotonic (s : Store) (id : String)
    (d : AssessmentInput) (outcome : RaceOutcome) (t1 t2 : ℕ)
    (a : Assessment) (h : getAssessment s id = some a)
    (hp : a.status = Status.pending) :
    (getAssessment (updateStore s id processingPatch t1) id).map
      Assessment.status = some Status.processing ∧
    (getAssessment (processAssessmentAsync s id d outcome t1 t2) id).map
      Assessment.status = some Status.completed ∧
    List.Chain' (fun x y => statusRank x ≤ statusRank y)
      [a.status, Status.processing, Status.completed] := by
  refine ⟨?_, ?_, ?_⟩
  · rw [getAssessment_updateStore_found s id processingPatch t1 a h]
    simp [applyPatch, processingPatch]
  · rw [processAsync_getAssessment s id d outcome t1 t2 a h]
    simp [applyPatch, completedPatch]
  · rw [hp]
    simp [List.chain'_cons, List.chain'_singleton, statusRank]

/-- Witness for pipeline_status_monotonic at the demo store. -/
theorem pipeline_status_monotonic_witness :
    getAssessment demoStore "a1" = some demoRecord ∧
    demoRecord.status = Status.pending ∧
    ((getAssessment (updateStore demoStore "a1" processingPatch 1)
        "a1").map Assessment.status = some Status.processing ∧
    (getAssessment
        (processAssessmentAsync demoStore "a1" demoFacts RaceOutcome.error
          1 2) "a1").map Assessment.status = some Status.completed ∧
    List.Chain' (fun x y => statusRank x ≤ statusRank y)
      [demoRecord.status, Status.processing, Status.completed]) :=
  ⟨rfl, rfl, pipeline_status_monotonic demoStore "a1" demoFacts
    RaceOutcome.error 1 2 demoRecord rfl rfl⟩

theorem jsRound_eq (q : ℚ) (z : ℤ) (h₁ : (z : ℚ) ≤ q + 1/2)
    (h₂ : q + 1/2 < z + 1) : jsRound q = z := by
  unfold jsRound
  rw [Int.floor_eq_iff]
  constructor
  · exact_mod_cast h₁
  · exact_mod_cast h₂

theorem jsRound_22_3 : ((jsRound (((8:ℚ) + 7 + 7) / 3) : ℤ) : ℚ) = 7 := by
  rw [jsRound_eq (((8:ℚ) + 7 + 7) / 3) 7 (by norm_num) (by norm_num)]
  norm_num

theorem jsRound_13_3 : ((jsRound (((5:ℚ) + 4 + 4) / 3) : ℤ) : ℚ) = 4 := by
  rw [jsRound_eq (((5:ℚ) + 4 + 4) / 3) 4 (by norm_num) (by norm_num)]
  norm_num

/-- Counterexample to C3 as stated: a riskFactors text containing
"congestion" but not "port" gets logisticsRiskScore 4, not 7, from
createFallbackAnalysis, whose heuristic checks only the substring
"port". -/
theorem fallback_heuristic_scores_counterexample :
    lowerIncludes congestionFacts.riskFactors "congestion" = true ∧
    lowerIncludes congestionFacts.riskFactors "port" = false ∧
    (createFallbackAnalysis congestionFacts).scores.logisticsRiskScore =
      4 ∧
    (createFallbackAnalysis congestionFacts).scores.logisticsRiskScore ≠
      7 := by
  have hp : lowerIncludes congestionFacts.riskFactors "port" = false := by
    decide
  have h4 : (createFallbackAnalysis
      congestionFacts).scores.logisticsRiskScore = 4 := by
    simp [createFallbackAnalysis, hp]
  refine ⟨by decide, hp, h4, ?_⟩
  rw [h4]
  norm_num

/-- C3 (amended): createEmergencyFallback — the fallback analyzer the
orchestrator runs — scores exactly as the claim states, including the
"port" or "congestion" disjunction; createFallbackAnalysis (the
gemini-service fallback) is identical except that its logistics heuristic
checks only "port". Both analyzers yield (8,7,7,7) on the one-supplier
Shanghai scenario and (5,4,4,4) on the three-supplier scenario. -/
theorem fallback_heuristic_scores (facts : AssessmentInput) :
    ((createEmergencyFallback facts).scores.supplierRiskScore =
      if facts.suppliers.length = 1 then 8 else 5) ∧
    ((createEmergencyFallback facts).scores.logisticsRiskScore =
      if lowerIncludes facts.riskFactors "port" ||
          lowerIncludes facts.riskFactors "congestion" then 7 else 4) ∧
    ((createEmergencyFallback facts).scores.geopoliticalRiskScore =
      if facts.suppliers.any (fun s => lowerIncludes s.location "china")
        then 7 else 4) ∧
    ((createEmergencyFallback facts).scores.overallRiskScore =
      ((jsRound (((createEmergencyFallback facts).scores.supplierRiskScore +
          (createEmergencyFallback facts).scores.logisticsRiskScore +
          (createEmergencyFallback facts).scores.geopoliticalRiskScore) /
          3) : ℤ) : ℚ)) ∧
    ((createFallbackAnalysis facts).scores.supplierRiskScore =
      if facts.suppliers.length = 1 then 8 else 5) ∧
    ((createFallbackAnalysis facts).scores.logisticsRiskScore =
      if lowerIncludes facts.riskFactors "port" then 7 else 4) ∧
    ((createFallbackAnalysis facts).scores.geopoliticalRiskScore =
      if facts.suppliers.any (fun s => lowerIncludes s.location "china")
        then 7 else 4) ∧
    ((createFallbackAnalysis facts).scores.overallRiskScore =
      ((jsRound (((createFallbackAnalysis facts).scores.supplierRiskScore +
          (createFallbackAnalysis facts).scores.logisticsRiskScore +
          (createFallbackAnalysis facts).scores.geopoliticalRiskScore) /
          3) : ℤ) : ℚ)) ∧
    (createEmergencyFallback demoFacts).scores.supplierRiskScore = 8 ∧
    (createEmergencyFallback demoFacts).scores.logisticsRiskScore = 7 ∧
    (createEmergencyFallback demoFacts).scores.geopoliticalRiskScore = 7 ∧
    (createEmergencyFallback demoFacts).scores.overallRiskScore = 7 ∧
    (createFallbackAnalysis demoFacts).scores.supplierRiskScore = 8 ∧
    (createFallbackAnalysis demoFacts).scores.logisticsRiskScore = 7 ∧
    (createFallbackAnalysis demoFacts).scores.geopoliticalRiskScore = 7 ∧
    (createFallbackAnalysis demoFacts).scores.overallRiskScore = 7 ∧
    (createEmergencyFallback demoFacts3).scores.supplierRiskScore = 5 ∧
    (createEmergencyFallback demoFacts3).scores.logisticsRiskScore = 4 ∧
    (createEmergencyFallback demoFacts3).scores.geopoliticalRiskScore = 4 ∧
    (createEmergencyFallback demoFacts3).scores.overallRiskScore = 4 ∧
    (createFallbackAnalysis demoFacts3).scores.supplierRiskScore = 5 ∧
    (createFallbackAnalysis demoFacts3).scores.logisticsRiskScore = 4 ∧
    (createFallbackAnalysis demoFacts3).scores.geopoliticalRiskScore = 4 ∧
    (createFallbackAnalysis demoFacts3).scores.overallRiskScore = 4 := by
  have hE1 : (createEmergencyFallback demoFacts).scores.overallRiskScore =
      ((jsRound (((8:ℚ) + 7 + 7) / 3) : ℤ) : ℚ) := rfl
  have hF1 : (createFallbackAnalysis demoFacts).scores.overallRiskScore =
      ((jsRound (((8:ℚ) + 7 + 7) / 3) : ℤ) : ℚ) := rfl
  have hE3 : (createEmergencyFallback demoFacts3).scores.overallRiskScore =
      ((jsRound (((5:ℚ) + 4 + 4) / 3) : ℤ) : ℚ) := rfl
  have hF3 : (createFallbackAnalysis demoFacts3).scores.overallRiskScore =
      ((jsRound (((5:ℚ) + 4 + 4) / 3) : ℤ) : ℚ) := rfl
  exact ⟨rfl, rfl, rfl, rfl, rfl, rfl, rfl, rfl,
    rfl, rfl, rfl, hE1.trans jsRound_22_3,
    rfl, rfl, rfl, hF1.trans jsRound_22_3,
    rfl, rfl, rfl, hE3.trans jsRound_13_3,
    rfl, rfl, rfl, hF3.trans jsRound_13_3⟩

theorem scores_range_aux (s l g : ℚ) (hs0 : 0 ≤ s) (hs1 : s ≤ 10)
    (hl0 : 0 ≤ l) (hl1 : l ≤ 10) (hg0 : 0 ≤ g) (hg1 : g ≤ 10) :
    0 ≤ ((jsRound ((s + l + g) / 3) : ℤ) : ℚ) ∧
    ((jsRound ((s + l + g) / 3) : ℤ) : ℚ) ≤ 10 := by
  unfold jsRound
  constructor
  · have h0 : (0:ℤ) ≤ ⌊(s + l + g) / 3 + 1/2⌋ := by
      apply Int.le_floor.mpr
      push_cast
      have : (0:ℚ) ≤ (s + l + g) / 3 := by positivity
      linarith
    exact_mod_cast h0
  · have h10 : ⌊(s + l + g) / 3 + 1/2⌋ ≤ 10 := by
      have hlt : (s + l + g) / 3 + 1/2 < ((11:ℤ):ℚ) := by
        push_cast
        have : (s + l + g) / 3 ≤ 10 := by
          rw [div_le_iff₀ (by norm_num : (0:ℚ) < 3)]
          linarith
        linarith
      have := Int.floor_lt.mpr hlt
      omega
    exact_mod_cast h10

theorem emergencyFallback_scoresInRange (d : AssessmentInput) :
    scoresInRange (createEmergencyFallback d) := by
  have hs : (0:ℚ) ≤ (if d.suppliers.length = 1 then (8:ℚ) else 5) ∧
      (if d.suppliers.length = 1 then (8:ℚ) else 5) ≤ 10 := by
    split <;> norm_num
  have hl : (0:ℚ) ≤
      (if lowerIncludes d.riskFactors "port" ||
          lowerIncludes d.riskFactors "congestion" then (7:ℚ) else 4) ∧
      (if lowerIncludes d.riskFactors "port" ||
          lowerIncludes d.riskFactors "congestion" then (7:ℚ) else 4) ≤
        10 := by
    split <;> norm_num
  have hg : (0:ℚ) ≤
      (if d.suppliers.any (fun s => lowerIncludes s.location "china")
        then (7:ℚ) else 4) ∧
      (if d.suppliers.any (fun s => lowerIncludes s.location "china")
        then (7:ℚ) else 4) ≤ 10 := by
    split <;> norm_num
  have ho := scores_range_aux _ _ _ hs.1 hs.2 hl.1 hl.2 hg.1 hg.2
  exact ⟨ho.1, ho.2, hs.1, hs.2, hl.1, hl.2, hg.1, hg.2⟩

/-- Counterexample to C5 as stated: the provider adapter parses the
response without validating score ranges, so a well-typed response with
overall score 11 is stored as-is by the automatic pipeline — a reachable
record whose non-null score lies outside [0,10]. -/
theorem result_fields_range_counterexample :
    (getAssessment c5Store "a1").map Assessment.status =
      some Status.completed ∧
    (getAssessment c5Store "a1").map Assessment.overallRiskScore =
      some (some 11) ∧
    ¬ ((11:ℚ) ≤ 10) := by
  have h : getAssessment demoStore "a1" = some demoRecord := rfl
  have h3 : getAssessment c5Store "a1" =
      some (applyPatch (applyPatch demoRecord processingPatch 1)
        (completedPatch (raceResultData demoFacts
          (raceOutcomeOfResponse (some demoBadResponse)))) 2) :=
    processAsync_getAssessment demoStore "a1" demoFacts
      (raceOutcomeOfResponse (some demoBadResponse)) 1 2 demoRecord h
  refine ⟨?_, ?_, by norm_num⟩ <;> rw [h3] <;>
    simp [applyPatch, completedPatch, raceResultData, raceOutcomeOfResponse,
      parseProviderResponse, demoBadResponse]

/-- C5 (amended): the orchestrator writes the four scores and the two
lists only inside its single completed-transition update — its first
update carries status processing and no result fields, its second carries
status completed together with all four scores and both lists — and the
fallback result always has scores in [0,10]; the provider result, however,
is stored without range validation, and PATCH can touch result fields
independently, so the store-wide version of the invariant fails. -/
theorem atomic_completed_write (d : AssessmentInput)
    (outcome : RaceOutcome) :
    (∀ s id t1 t2, processAssessmentAsync s id d outcome t1 t2 =
      runPatches s id ((orchestratorPatches d outcome).zip [t1, t2])) ∧
    (∀ p ∈ orchestratorPatches d outcome,
      (p.status = some Status.processing ∧
       p.overallRiskScore = none ∧ p.supplierRiskScore = none ∧
       p.logisticsRiskScore = none ∧ p.geopoliticalRiskScore = none ∧
       p.vulnerabilities = none ∧ p.recommendations = none) ∨
      (p.status = some Status.completed ∧
       p.overallRiskScore.isSome ∧ p.supplierRiskScore.isSome ∧
       p.logisticsRiskScore.isSome ∧ p.geopoliticalRiskScore.isSome ∧
       p.vulnerabilities.isSome ∧ p.recommendations.isSome)) ∧
    scoresInRange (createEmergencyFallback d) := by
  refine ⟨fun s id t1 t2 => rfl, ?_, emergencyFallback_scoresInRange d⟩
  intro p hp
  simp only [orchestratorPatches, List.mem_cons, List.mem_singleton,
    List.not_mem_nil, or_false] at hp
  rcases hp with hp | hp
  · subst hp
    left
    exact ⟨rfl, rfl, rfl, rfl, rfl, rfl, rfl⟩
  · subst hp
    right
    exact ⟨rfl, rfl, rfl, rfl, rfl, rfl, rfl⟩

/-- C8: a POST body whose suppliers array is empty, or whose companyName,
industry, logisticsRoutes or riskFactors key is missing or empty, fails
assessmentInputSchema validation: the handler answers 400 and the store is
exactly the store before the call — no record is created. -/
theorem invalid_facts_rejected (s : Store) (body : RawAssessmentInput)
    (id : String) (now : ℕ)
    (h : body.suppliers = some [] ∨
         body.companyName = none ∨ body.companyName = some "" ∨
         body.industry = none ∨ body.industry = some "" ∨
         body.logisticsRoutes = none ∨ body.logisticsRoutes = some "" ∨
         body.riskFactors = none ∨ body.riskFactors = some "") :
    postAssessments s body id now = (400, s) := by
  obtain ⟨cn, ind, sup, lr, tm, rf⟩ := body
  dsimp only at h
  have hv : validateAssessmentInput
      (RawAssessmentInput.mk cn ind sup lr tm rf) = none := by
    unfold validateAssessmentInput
    dsimp only
    rcases cn with _ | cn
    · rfl
    rcases ind with _ | ind
    · rfl
    rcases sup with _ | sup
    · rfl
    rcases lr with _ | lr
    · rfl
    rcases tm with _ | tm
    · rfl
    rcases rf with _ | rf
    · rfl
    simp only [Option.some.injEq, reduceCtorEq, or_false, false_or] at h
    rcases h with h | h | h | h | h
    · subst h
      simp [List.mapM, List.mapM.loop]
    · subst h
      cases hm : List.mapM validateSupplier sup <;> simp [hm] <;>
        cases List.mapM.loop validateSupplier sup [] <;> rfl
    · subst h
      cases hm : List.mapM validateSupplier sup <;> simp [hm] <;>
        cases List.mapM.loop validateSupplier sup [] <;> rfl
    · subst h
      cases hm : List.mapM validateSupplier sup <;> simp [hm] <;>
        cases List.mapM.loop validateSupplier sup [] <;> rfl
    · subst h
      cases hm : List.mapM validateSupplier sup <;> simp [hm] <;>
        cases List.mapM.loop validateSupplier sup [] <;> rfl
  unfold postAssessments
  rw [hv]

/-- Witness for invalid_facts_rejected at the empty-suppliers body. -/
theorem invalid_facts_rejected_witness :
    (rawBodyEmptySuppliers.suppliers = some [] ∨
     rawBodyEmptySuppliers.companyName = none ∨
     rawBodyEmptySuppliers.companyName = some "" ∨
     rawBodyEmptySuppliers.industry = none ∨
     rawBodyEmptySuppliers.industry = some "" ∨
     rawBodyEmptySuppliers.logisticsRoutes = none ∨
     rawBodyEmptySuppliers.logisticsRoutes = some "" ∨
     rawBodyEmptySuppliers.riskFactors = none ∨
     rawBodyEmptySuppliers.riskFactors = some "") ∧
    postAssessments demoStore rawBodyEmptySuppliers "b2" 7 =
      (400, demoStore) :=
  ⟨Or.inl rfl, invalid_facts_rejected demoStore rawBodyEmptySuppliers "b2" 7
    (Or.inl rfl)⟩

end SupplyGuard
